import Mathlib

/-
Verification development for the binary classifier with trainable activation
functions (src/prediction/predictor_model.py).

The numeric inference path (TrainableActivationLayer.call, the dense network,
predict / predict_proba / evaluate / save / load) is embedded over the reals;
the training control loop (the callbacks run at each epoch end) and the
weight-initialization RNG are embedded as computable functions over the
rationals.
-/

namespace PredictorModel

/-! Trainable activation layer (TrainableActivationLayer in the source).

The layer owns three trainable tensors created in build for input width D and
num_cps change points: locations (1, D, K), location_values (1, D, K) and
lambda_ (1, D, 1).  The leading broadcast axis of size 1 is dropped here. -/

structure TrainableActivationLayer (D K : ℕ) where
  locations : Fin D → Fin K → ℝ
  location_values : Fin D → Fin K → ℝ
  lambda_ : Fin D → ℝ

/-- Softmax across the last axis, as tf.nn.softmax does over the K
change-point axis. -/
noncomputable def softmax {K : ℕ} (z : Fin K → ℝ) : Fin K → ℝ :=
  fun k => Real.exp (z k) / ∑ j, Real.exp (z j)

/-- One feature of TrainableActivationLayer.call: squared distance to each
location, scaled by -lambda_ and exponentiated, softmax across the K
change points, weighted sum of location_values, then tanh. -/
noncomputable def TrainableActivationLayer.callFeature {D K : ℕ}
    (L : TrainableActivationLayer D K) (d : Fin D) (t : ℝ) : ℝ :=
  let sq_diff : Fin K → ℝ := fun k => (t - L.locations d k) ^ 2
  let affinities : Fin K → ℝ := fun k => Real.exp (-L.lambda_ d * sq_diff k)
  let probs : Fin K → ℝ := softmax affinities
  let loc_vals_x_probs : Fin K → ℝ := fun k => L.location_values d k * probs k
  Real.tanh (∑ k, loc_vals_x_probs k)

/-- Layer applied to one sample of width D (the per-feature map of call). -/
noncomputable def TrainableActivationLayer.callVec {D K : ℕ}
    (L : TrainableActivationLayer D K) (x : Fin D → ℝ) : Fin D → ℝ :=
  fun d => L.callFeature d (x d)

/-- TrainableActivationLayer.call on a batch of shape (N, D); the result has
shape (N, D). -/
noncomputable def TrainableActivationLayer.call {D K N : ℕ}
    (L : TrainableActivationLayer D K) (inputs : Fin N → Fin D → ℝ) :
    Fin N → Fin D → ℝ :=
  fun n d => L.callFeature d (inputs n d)

/-! Dense layers and the fixed network topology of Classifier.build_model. -/

structure DenseLayer (inDim outDim : ℕ) where
  kernel : Fin inDim → Fin outDim → ℝ
  bias : Fin outDim → ℝ

/-- A Keras Dense layer with linear activation: x W + b. -/
noncomputable def DenseLayer.call {i o : ℕ} (L : DenseLayer i o)
    (x : Fin i → ℝ) : Fin o → ℝ :=
  fun j => (∑ k, x k * L.kernel k j) + L.bias j

/-- Logistic sigmoid, the activation of the final Dense(1) layer. -/
noncomputable def sigmoid (z : ℝ) : ℝ := 1 / (1 + Real.exp (-z))

/-- The network built by Classifier.build_model:
Input(D) -> Dense(min(100, D*5)) -> TrainableActivationLayer(num_cps)
-> Dense(D*2) -> TrainableActivationLayer(num_cps) -> Dense(1, sigmoid). -/
structure ClassifierNetwork (D K : ℕ) where
  dense1 : DenseLayer D (min 100 (D * 5))
  act1 : TrainableActivationLayer (min 100 (D * 5)) K
  dense2 : DenseLayer (min 100 (D * 5)) (D * 2)
  act2 : TrainableActivationLayer (D * 2) K
  dense3 : DenseLayer (D * 2) 1

/-- Forward pass of the network on a single sample, producing the scalar
probability emitted by the final sigmoid unit. -/
noncomputable def ClassifierNetwork.forward {D K : ℕ}
    (net : ClassifierNetwork D K) (x : Fin D → ℝ) : ℝ :=
  let h1 := net.dense1.call x
  let a1 := net.act1.callVec h1
  let h2 := net.dense2.call a1
  let a2 := net.act2.callVec h2
  sigmoid (net.dense3.call a2 0)

/-- Forward pass on a batch of shape (N, D); the output has shape (N, 1). -/
noncomputable def ClassifierNetwork.forwardBatch {D K N : ℕ}
    (net : ClassifierNetwork D K) (x : Fin N → Fin D → ℝ) :
    Fin N → Fin 1 → ℝ :=
  fun n _ => net.forward (x n)

/-! The Classifier facade.  self.model is None until fit; evaluate and save
raise NotFittedError while it is None (the spec calls this
UnfittedModelError).  Raising is embedded as an Except value, and each
stateful method also returns the (unchanged) classifier. -/

inductive PredictorError where
  | notFitted
  deriving DecidableEq

structure Classifier where
  D : ℕ
  lr : ℝ
  num_cps : ℕ
  model : Option (ClassifierNetwork D num_cps)

/-- Classifier.predict_proba: stacks the two columns (1 - p, p) where p is
the network's scalar probability per row. -/
noncomputable def Classifier.predict_proba (c : Classifier) (N : ℕ)
    (inputs : Fin N → Fin c.D → ℝ) : Option (Fin N → Fin 2 → ℝ) :=
  c.model.map fun net => fun n j =>
    if (j : ℕ) = 0 then 1 - net.forward (inputs n) else net.forward (inputs n)

/-- Classifier.predict: thresholds the scalar probability at 0.5 inclusive
(p >= 0.5 maps to class 1). -/
noncomputable def Classifier.predict (c : Classifier) (N : ℕ)
    (inputs : Fin N → Fin c.D → ℝ) : Option (Fin N → ℕ) :=
  c.model.map fun net => fun n =>
    if (1 : ℝ) / 2 ≤ net.forward (inputs n) then 1 else 0

/-- Binary classification accuracy at threshold 0.5, the metric returned at
index 1 by model.evaluate. -/
noncomputable def accuracy {N : ℕ} (probs : Fin N → ℝ) (targets : Fin N → ℕ) :
    ℝ :=
  (Finset.univ.filter fun n =>
    (if (1 : ℝ) / 2 ≤ probs n then 1 else 0) = targets n).card / N

/-- Classifier.evaluate: accuracy on the test data, or NotFittedError when no
network is present; the classifier itself is returned unchanged (the source
method performs no assignment). -/
noncomputable def Classifier.evaluate (c : Classifier) {N : ℕ}
    (test_inputs : Fin N → Fin c.D → ℝ) (test_targets : Fin N → ℕ) :
    Except PredictorError ℝ × Classifier :=
  match c.model with
  | some net =>
      (.ok (accuracy (fun n => net.forward (test_inputs n)) test_targets), c)
  | none => (.error .notFitted, c)

/-- The artifacts Classifier.save persists under the model directory: the
hyperparameter blob (D, lr, num_cps) and the network weights. -/
structure SavedArtifact where
  D : ℕ
  lr : ℝ
  num_cps : ℕ
  weights : ClassifierNetwork D num_cps

/-- Classifier.save: NotFittedError when no network is present, otherwise the
persisted artifact; the classifier itself is unchanged.  The opaque blob
store (joblib / save_weights under the directory) is abstracted as the
returned SavedArtifact value. -/
noncomputable def Classifier.save (c : Classifier) :
    Except PredictorError SavedArtifact × Classifier :=
  match c.model with
  | some net => (.ok ⟨c.D, c.lr, c.num_cps, net⟩, c)
  | none => (.error .notFitted, c)

/-- Classifier.load: rebuilds a classifier from the stored hyperparameters,
builds the network and loads the stored weights into it (load_weights with
expect_partial restores exactly the trainable weights). -/
noncomputable def Classifier.load (s : SavedArtifact) : Classifier :=
  ⟨s.D, s.lr, s.num_cps, some s.weights⟩

/-! The training control loop.  Classifier.fit passes the callback list
[early_stop_callback, infcost_stop_callback, logger_callback] to model.fit;
Keras runs on_epoch_end of each callback in list order at the end of every
epoch and then stops before the next epoch if model.stop_training was set.
The loop and the three callbacks are embedded over the rationals;
InfCostStopCallback is translated from the source, while the internals of
the framework-provided EarlyStopping callback are modelled from the spec:
it monitors the configured loss for an improvement of at least min_delta
over the best value seen and stops after patience consecutive epochs
without one. -/

inductive LossVal where
  | val : ℚ → LossVal
  | posInf
  | negInf
  | nan
  deriving DecidableEq

/-- COST_THRESHOLD = float("inf"). -/
def COST_THRESHOLD : LossVal := .posInf

/-- tf.math.is_nan. -/
def isNan : LossVal → Bool
  | .nan => true
  | _ => false

/-- The test in InfCostStopCallback.on_epoch_end:
loss_val == COST_THRESHOLD or tf.math.is_nan(loss_val). -/
def isDiverged (l : LossVal) : Bool :=
  decide (l = COST_THRESHOLD) || isNan l

/-- min_delta=1e-3 passed to EarlyStopping in Classifier.fit. -/
def min_delta : ℚ := 1 / 1000

/-- patience=20 passed to EarlyStopping in Classifier.fit. -/
def patience : ℕ := 20

/-- self._log_period = 10 (logging per 10 epochs). -/
def log_period : ℕ := 10

/-- State threaded through the epoch-end callbacks: the early-stopping best
value and wait counter, the model.stop_training flag, the epochs at which
the divergence warning was logged, and the epochs at which the periodic
logger fired. -/
structure TrainState where
  esBest : Option ℚ
  esWait : ℕ
  stopTraining : Bool
  warnedEpochs : List ℕ
  loggedEpochs : List ℕ
  deriving DecidableEq

def initialTrainState : TrainState := ⟨none, 0, false, [], []⟩

/-- The per-epoch metric streams the callbacks read: the training loss
(checked for divergence) and the monitored metric of EarlyStopping
(val_loss or loss, per fitConfig). -/
structure EpochSeqs where
  loss : ℕ → LossVal
  monitor : ℕ → ℚ

inductive Cb where
  | earlyStopping
  | infCostStop
  | epochLogger
  deriving DecidableEq

/-- The callbacks list passed to model.fit in Classifier.fit, in source
order: [early_stop_callback, infcost_stop_callback, logger_callback]. -/
def fitCallbacks : List Cb := [.earlyStopping, .infCostStop, .epochLogger]

/-- on_epoch_end of a single callback. -/
def applyCb (seqs : EpochSeqs) (epoch : ℕ) : Cb → TrainState → TrainState
  | .earlyStopping, s =>
    let current := seqs.monitor epoch
    match s.esBest with
    | none => { s with esBest := some current, esWait := 0 }
    | some best =>
      if min_delta ≤ best - current then
        { s with esBest := some current, esWait := 0 }
      else
        { s with esWait := s.esWait + 1,
                 stopTraining :=
                   s.stopTraining || decide (patience ≤ s.esWait + 1) }
  | .infCostStop, s =>
    if isDiverged (seqs.loss epoch) then
      { s with stopTraining := true, warnedEpochs := s.warnedEpochs ++ [epoch] }
    else s
  | .epochLogger, s =>
    if epoch % log_period = 0 then
      { s with loggedEpochs := s.loggedEpochs ++ [epoch] }
    else s

/-- End of one epoch: the callbacks run in the order of fitCallbacks. -/
def epochEnd (seqs : EpochSeqs) (epoch : ℕ) (s : TrainState) : TrainState :=
  fitCallbacks.foldl (fun t c => applyCb seqs epoch c t) s

structure RunResult where
  epochsCompleted : ℕ
  final : TrainState
  deriving DecidableEq

/-- The epoch loop of model.fit from epoch e with the given number of epochs
remaining: run the epoch, run the epoch-end callbacks, stop if
model.stop_training was set.  epochsCompleted is the number of epochs that
actually ran. -/
def runFrom (seqs : EpochSeqs) : ℕ → ℕ → TrainState → RunResult
  | e, 0, s => ⟨e, s⟩
  | e, fuel + 1, s =>
    let s1 := epochEnd seqs e s
    if s1.stopTraining then ⟨e + 1, s1⟩ else runFrom seqs (e + 1) fuel s1

/-- A full training run over at most the given number of epochs. -/
def runTraining (seqs : EpochSeqs) (epochs : ℕ) : RunResult :=
  runFrom seqs 0 epochs initialTrainState

/-- Just the epoch-end callback pipeline applied for k consecutive epochs
starting at epoch a (no stop check between them), used to reason about the
early-stopping bookkeeping in isolation. -/
def runEpochEnds (seqs : EpochSeqs) : ℕ → ℕ → TrainState → TrainState
  | _, 0, s => s
  | a, k + 1, s => runEpochEnds seqs (a + 1) k (epochEnd seqs a s)

/-- The monitor / validation-split selection at the top of Classifier.fit:
fewer than 300 training rows means no split and monitoring "loss", otherwise
a 0.15 validation split and monitoring "val_loss". -/
def fitConfig (numRows : ℕ) : String × Option ℚ :=
  if numRows < 300 then ("loss", none) else ("val_loss", some (15 / 100))

/-- Classifier.fit always assigns self.model = self.build_model() before
training, and a divergence stop only sets stop_training, so the classifier
ends fit with a network present; the trained weights are abstracted as the
given network. -/
noncomputable def fitClassifier (lr : ℝ) (num_cps D : ℕ)
    (net : ClassifierNetwork D num_cps) (seqs : EpochSeqs) (epochs : ℕ) :
    Classifier × RunResult :=
  (⟨D, lr, num_cps, some net⟩, runTraining seqs epochs)

/-! Weight initialization.  get_init_values draws np.prod(shape) values from
the numpy global RNG (np.random.randn) and reshapes them.  Classifier.fit
calls tf.random.set_seed(0), which seeds the TensorFlow RNG but not numpy's,
so consecutive fits consume successive positions of the same numpy global
stream.  The stream is embedded as a function with a cursor. -/

structure NpRng where
  stream : ℕ → ℚ
  pos : ℕ

/-- get_init_values for a flat dimension: the next dim values of the global
stream, advancing the cursor. -/
def get_init_values (g : NpRng) (dim : ℕ) : (ℕ → ℚ) × NpRng :=
  (fun i => g.stream (g.pos + i), ⟨g.stream, g.pos + dim⟩)

/-- The three tensors a TrainableActivationLayer creates in build, as drawn
values (row-major reshape of shapes (1, D, K), (1, D, K), (1, D, 1)). -/
structure TAInit (D K : ℕ) where
  locations : Fin D → Fin K → ℚ
  location_values : Fin D → Fin K → ℚ
  lambda_ : Fin D → ℚ

/-- TrainableActivationLayer.build for input width D: three get_init_values
calls, in source order locations, location_values, lambda_. -/
def buildTA (D K : ℕ) (g : NpRng) : TAInit D K × NpRng :=
  let locPair := get_init_values g (D * K)
  let valPair := get_init_values locPair.2 (D * K)
  let lamPair := get_init_values valPair.2 D
  (⟨fun d k => locPair.1 (d.1 * K + k.1),
    fun d k => valPair.1 (d.1 * K + k.1),
    fun d => lamPair.1 d.1⟩, lamPair.2)

/-- The numpy draws consumed by one Classifier.build_model call: the first
activation layer is built at width min(100, D*5), the second at width D*2. -/
def buildModelNpInit (D K : ℕ) (g : NpRng) :
    (TAInit (min 100 (D * 5)) K × TAInit (D * 2) K) × NpRng :=
  let first := buildTA (min 100 (D * 5)) K g
  let second := buildTA (D * 2) K first.2
  ((first.1, second.1), second.2)

/-! Concrete instances used by the witnesses. -/

/-- All-zero trainable activation layer. -/
noncomputable def zeroTAOf (D K : ℕ) : TrainableActivationLayer D K :=
  ⟨fun _ _ => 0, fun _ _ => 0, fun _ => 0⟩

/-- All-zero dense layer. -/
noncomputable def zeroDense (i o : ℕ) : DenseLayer i o :=
  ⟨fun _ _ => 0, fun _ => 0⟩

/-- All-zero network for D = 1, num_cps = 1. -/
noncomputable def zeroNet : ClassifierNetwork 1 1 :=
  ⟨zeroDense _ _, zeroTAOf _ _, zeroDense _ _, zeroTAOf _ _, zeroDense _ _⟩

/-- A fitted classifier: D = 1, the default lr = 1e-3, num_cps = 1, with the
all-zero network present. -/
noncomputable def fittedClassifier : Classifier := ⟨1, 1 / 1000, 1, some zeroNet⟩

/-- An unfit classifier: no network present. -/
noncomputable def unfittedClassifier : Classifier := ⟨1, 1 / 1000, 2, none⟩

/-- Metric streams whose training loss is NaN from epoch 0 on. -/
def nanLossSeqs : EpochSeqs := ⟨fun _ => .nan, fun _ => 0⟩

/-- Metric streams with constant finite loss 0. -/
def flatSeqs : EpochSeqs := ⟨fun _ => .val 0, fun _ => 0⟩

/-- An early-stopping state with best value 0 already recorded. -/
def esProbeState : TrainState := ⟨some 0, 0, false, [], []⟩

/-- The numpy global stream 0, 1, 2, ... with the cursor at 0. -/
def rampRng : NpRng := ⟨fun n => (n : ℚ), 0⟩

/-- The activation-layer weights of a first build_model call (D=1, K=1) on
the ramp stream, together with the advanced stream. -/
def firstFitInit := buildModelNpInit 1 1 rampRng

/-- The activation-layer weights of a second, identically-configured
build_model call, consuming the stream where the first left it. -/
def secondFitInit := buildModelNpInit 1 1 firstFitInit.2

/-! Helper lemmas about the numeric primitives. -/

theorem tanh_mem_Ioo (t : ℝ) : Real.tanh t ∈ Set.Ioo (-1 : ℝ) 1 := by
  rw [Real.tanh_eq_sinh_div_cosh]
  constructor
  · rw [lt_div_iff₀ (Real.cosh_pos t)]
    have h := Real.sinh_lt_cosh (-t)
    rw [Real.sinh_neg, Real.cosh_neg] at h
    linarith
  · rw [div_lt_one (Real.cosh_pos t)]
    exact Real.sinh_lt_cosh t

theorem sigmoid_mem_Ioo (z : ℝ) : sigmoid z ∈ Set.Ioo (0 : ℝ) 1 := by
  have h := Real.exp_pos (-z)
  constructor
  · exact div_pos one_pos (by linarith)
  · rw [sigmoid, div_lt_one (by linarith)]
    linarith

theorem softmax_sum_one {K : ℕ} (hK : 1 ≤ K) (z : Fin K → ℝ) :
    ∑ k, softmax z k = 1 := by
  haveI : Nonempty (Fin K) := ⟨⟨0, hK⟩⟩
  have hpos : 0 < ∑ j, Real.exp (z j) :=
    Finset.sum_pos (fun j _ => Real.exp_pos (z j)) Finset.univ_nonempty
  unfold softmax
  rw [← Finset.sum_div, div_self (ne_of_gt hpos)]

/-- C1: for a built TrainableActivation layer with feature width D and K ≥ 1
change points, on a batch of shape (N, D) the output has shape (N, D) (by the
type of call) and is computed per feature independently: the affinities
exp(-lambda_ * squared distance to each location) are normalized by a softmax
across the K change points into weights summing to 1, and the output entry is
tanh of the weighted sum of location_values, hence lies in (-1, 1). -/
theorem trainable_activation_call_props (D K N : ℕ) (hK : 1 ≤ K)
    (L : TrainableActivationLayer D K) (x : Fin N → Fin D → ℝ)
    (n : Fin N) (d : Fin D) :
    (∑ k, softmax
        (fun k => Real.exp (-L.lambda_ d * (x n d - L.locations d k) ^ 2)) k = 1)
    ∧ L.call x n d = Real.tanh (∑ k, L.location_values d k *
        softmax
          (fun k => Real.exp (-L.lambda_ d * (x n d - L.locations d k) ^ 2)) k)
    ∧ L.call x n d ∈ Set.Ioo (-1 : ℝ) 1
    ∧ (∀ (M : ℕ) (y : Fin M → Fin D → ℝ) (m : Fin M),
        y m d = x n d → L.call y m d = L.call x n d) := by
  refine ⟨softmax_sum_one hK _, rfl, ?_, ?_⟩
  · exact tanh_mem_Ioo _
  · intro M y m hy
    simp only [TrainableActivationLayer.call, hy]

/-- Witness for C1 at D = K = N = 1 with the all-zero layer and zero input. -/
theorem trainable_activation_call_props_witness :
    (1 ≤ 1) ∧
      (zeroTAOf 1 1).call (fun (_ : Fin 1) (_ : Fin 1) => (0 : ℝ)) 0 0 ∈
        Set.Ioo (-1 : ℝ) 1 :=
  ⟨by decide,
    (trainable_activation_call_props 1 1 1 (by decide) (zeroTAOf 1 1)
      (fun _ _ => 0) 0 0).2.2.1⟩

/-- C2: for every input width D and K in {1,2,3}, the built network has the
fixed topology Input(D) -> Dense(min(100, D*5)) -> TrainableActivation(K) ->
Dense(D*2) -> TrainableActivation(K) -> Dense(1, sigmoid) (the layer widths
are carried by the fields of ClassifierNetwork), and a forward pass on a
batch of shape (N, D) yields output of shape (N, 1) (the type of
forwardBatch) with every value in [0, 1]. -/
theorem build_model_topology_and_range (D K N : ℕ)
    (hK : K = 1 ∨ K = 2 ∨ K = 3) (net : ClassifierNetwork D K)
    (x : Fin N → Fin D → ℝ) (n : Fin N) (j : Fin 1) :
    net.forwardBatch x n j =
      sigmoid (net.dense3.call (net.act2.callVec (net.dense2.call
        (net.act1.callVec (net.dense1.call (x n))))) 0)
    ∧ 0 ≤ net.forwardBatch x n j ∧ net.forwardBatch x n j ≤ 1 := by
  have hmem := sigmoid_mem_Ioo (net.dense3.call (net.act2.callVec
    (net.dense2.call (net.act1.callVec (net.dense1.call (x n))))) 0)
  exact ⟨rfl, le_of_lt hmem.1, le_of_lt hmem.2⟩

/-- Witness for C2 at D = K = N = 1 with the all-zero network. -/
theorem build_model_topology_and_range_witness :
    ((1 : ℕ) = 1 ∨ (1 : ℕ) = 2 ∨ (1 : ℕ) = 3)
    ∧ 0 ≤ zeroNet.forwardBatch (fun (_ : Fin 1) (_ : Fin 1) => (0 : ℝ)) 0 0
    ∧ zeroNet.forwardBatch (fun (_ : Fin 1) (_ : Fin 1) => (0 : ℝ)) 0 0 ≤ 1 :=
  ⟨Or.inl rfl,
    (build_model_topology_and_range 1 1 1 (Or.inl rfl) zeroNet
      (fun _ _ => 0) 0 0).2⟩

/-- C3: on a fitted classifier, predict returns one label per row, each label
in {0, 1}, and a row's label is 1 exactly when column 1 of predict_proba's
result (the class-1 probability) is at least 0.5. -/
theorem predict_threshold_relation (c : Classifier)
    (net : ClassifierNetwork c.D c.num_cps) (h : c.model = some net)
    (N : ℕ) (x : Fin N → Fin c.D → ℝ) :
    ∃ labels probs, c.predict N x = some labels
      ∧ c.predict_proba N x = some probs
      ∧ ∀ n : Fin N, (labels n = 0 ∨ labels n = 1)
          ∧ (labels n = 1 ↔ (1 : ℝ) / 2 ≤ probs n 1) := by
  refine ⟨fun n => if (1 : ℝ) / 2 ≤ net.forward (x n) then 1 else 0,
    fun n j => if (j : ℕ) = 0 then 1 - net.forward (x n) else net.forward (x n),
    by simp [Classifier.predict, h],
    by simp [Classifier.predict_proba, h], ?_⟩
  intro n
  constructor
  · by_cases hp : (1 : ℝ) / 2 ≤ net.forward (x n)
    · right
      show (if (1 : ℝ) / 2 ≤ net.forward (x n) then 1 else 0) = 1
      rw [if_pos hp]
    · left
      show (if (1 : ℝ) / 2 ≤ net.forward (x n) then 1 else 0) = 0
      rw [if_neg hp]
  · show (if (1 : ℝ) / 2 ≤ net.forward (x n) then 1 else 0) = 1 ↔
      (1 : ℝ) / 2 ≤ (if ((1 : Fin 2) : ℕ) = 0 then 1 - net.forward (x n)
        else net.forward (x n))
    have hcol : (if ((1 : Fin 2) : ℕ) = 0 then 1 - net.forward (x n)
        else net.forward (x n)) = net.forward (x n) := by norm_num
    rw [hcol]
    by_cases hp : (1 : ℝ) / 2 ≤ net.forward (x n) <;> simp [hp]

/-- Witness for C3 on the concrete fitted classifier. -/
theorem predict_threshold_relation_witness :
    fittedClassifier.model = some zeroNet
    ∧ ∃ labels probs,
        fittedClassifier.predict 1 (fun (_ : Fin 1) (_ : Fin 1) => (0 : ℝ)) =
          some labels
        ∧ fittedClassifier.predict_proba 1
            (fun (_ : Fin 1) (_ : Fin 1) => (0 : ℝ)) = some probs
        ∧ ∀ n : Fin 1, (labels n = 0 ∨ labels n = 1)
            ∧ (labels n = 1 ↔ (1 : ℝ) / 2 ≤ probs n 1) :=
  ⟨rfl, predict_threshold_relation fittedClassifier zeroNet rfl 1
    (fun _ _ => 0)⟩

/-- C4: on a fitted classifier, predict_proba returns a two-column table with
one row per input row, column 1 the network's scalar probability p, column 0
equal to 1 - p, and the two columns of every row summing to 1. -/
theorem predict_proba_columns (c : Classifier)
    (net : ClassifierNetwork c.D c.num_cps) (h : c.model = some net)
    (N : ℕ) (x : Fin N → Fin c.D → ℝ) :
    ∃ probs, c.predict_proba N x = some probs
      ∧ ∀ n : Fin N, probs n 1 = net.forward (x n)
          ∧ probs n 0 = 1 - net.forward (x n)
          ∧ probs n 0 + probs n 1 = 1 := by
  refine ⟨fun n j =>
    if (j : ℕ) = 0 then 1 - net.forward (x n) else net.forward (x n),
    by simp [Classifier.predict_proba, h], fun n => ⟨by simp, by simp, ?_⟩⟩
  simp

/-- Witness for C4 on the concrete fitted classifier. -/
theorem predict_proba_columns_witness :
    fittedClassifier.model = some zeroNet
    ∧ ∃ probs,
        fittedClassifier.predict_proba 1
          (fun (_ : Fin 1) (_ : Fin 1) => (0 : ℝ)) = some probs
        ∧ ∀ n : Fin 1, probs n 1 = zeroNet.forward (fun _ => 0)
            ∧ probs n 0 = 1 - zeroNet.forward (fun _ => 0)
            ∧ probs n 0 + probs n 1 = 1 :=
  ⟨rfl, predict_proba_columns fittedClassifier zeroNet rfl 1 (fun _ _ => 0)⟩

/-- C5: on a fitted classifier, save succeeds and produces an artifact
holding the hyperparameters (D, lr, num_cps) and the network weights, and
load on that artifact rebuilds a classifier equal to the original, so it
produces identical predictions on every fixed input batch. -/
theorem save_load_round_trip (c : Classifier)
    (net : ClassifierNetwork c.D c.num_cps) (h : c.model = some net) :
    ∃ s : SavedArtifact, (c.save).1 = .ok s
      ∧ s.D = c.D ∧ s.lr = c.lr ∧ s.num_cps = c.num_cps
      ∧ Classifier.load s = c
      ∧ HEq (Classifier.load s).predict_proba c.predict_proba := by
  obtain ⟨D, lr, K, model⟩ := c
  cases model with
  | none => exact absurd h (by simp)
  | some m =>
    obtain rfl : m = net := by injection h
    exact ⟨⟨D, lr, K, m⟩, rfl, rfl, rfl, rfl, rfl, HEq.rfl⟩

/-- Witness for C5 on the concrete fitted classifier. -/
theorem save_load_round_trip_witness :
    fittedClassifier.model = some zeroNet
    ∧ ∃ s : SavedArtifact, (fittedClassifier.save).1 = .ok s
        ∧ Classifier.load s = fittedClassifier := by
  refine ⟨rfl, ?_⟩
  obtain ⟨s, h1, -, -, -, h5, -⟩ :=
    save_load_round_trip fittedClassifier zeroNet rfl
  exact ⟨s, h1, h5⟩

/-- C7: while no network is present, evaluate and save both return
NotFittedError and leave the classifier unchanged; once a network is
present, both succeed. -/
theorem unfitted_model_errors (c cf : Classifier) (hc : c.model = none)
    (netf : ClassifierNetwork cf.D cf.num_cps) (hf : cf.model = some netf)
    (N : ℕ) (x : Fin N → Fin c.D → ℝ) (y : Fin N → ℕ)
    (M : ℕ) (xf : Fin M → Fin cf.D → ℝ) (yf : Fin M → ℕ) :
    c.evaluate x y = (.error .notFitted, c)
    ∧ c.save = (.error .notFitted, c)
    ∧ (∃ v, (cf.evaluate xf yf).1 = .ok v)
    ∧ (∃ s, (cf.save).1 = .ok s) := by
  refine ⟨?_, ?_, ?_, ?_⟩
  · simp [Classifier.evaluate, hc]
  · simp [Classifier.save, hc]
  · exact ⟨accuracy (fun n => netf.forward (xf n)) yf,
      by simp [Classifier.evaluate, hf]⟩
  · exact ⟨⟨cf.D, cf.lr, cf.num_cps, netf⟩, by simp [Classifier.save, hf]⟩

/-- Witness for C7 on the concrete unfit and fitted classifiers. -/
theorem unfitted_model_errors_witness :
    unfittedClassifier.model = none
    ∧ fittedClassifier.model = some zeroNet
    ∧ unfittedClassifier.save = (.error .notFitted, unfittedClassifier)
    ∧ (∃ s, (fittedClassifier.save).1 = .ok s) := by
  have happ := unfitted_model_errors unfittedClassifier fittedClassifier rfl
    zeroNet rfl 1 (fun _ _ => 0) (fun _ => 0) 1 (fun _ _ => 0) (fun _ => 0)
  exact ⟨rfl, rfl, happ.2.1, happ.2.2.2⟩

/-! Helper lemmas about the epoch-end callback pipeline. -/

theorem applyCb_stop_mono (seqs : EpochSeqs) (e : ℕ) (cb : Cb)
    (s : TrainState) (h : s.stopTraining = true) :
    (applyCb seqs e cb s).stopTraining = true := by
  obtain ⟨eb, ew, st, we, le⟩ := s
  have hst : st = true := h
  subst hst
  cases cb with
  | earlyStopping =>
    simp only [applyCb]
    cases eb with
    | none => rfl
    | some b2 =>
      split
      · rfl
      · split <;> rfl
  | infCostStop =>
    simp only [applyCb]
    split <;> rfl
  | epochLogger =>
    simp only [applyCb]
    split <;> rfl

theorem epochEnd_eq_pipeline (seqs : EpochSeqs) (e : ℕ) (s : TrainState) :
    epochEnd seqs e s = applyCb seqs e Cb.epochLogger
      (applyCb seqs e Cb.infCostStop (applyCb seqs e Cb.earlyStopping s)) :=
  rfl

theorem epochEnd_stop_mono (seqs : EpochSeqs) (e : ℕ) (s : TrainState)
    (h : s.stopTraining = true) : (epochEnd seqs e s).stopTraining = true := by
  rw [epochEnd_eq_pipeline]
  exact applyCb_stop_mono _ _ _ _ (applyCb_stop_mono _ _ _ _
    (applyCb_stop_mono _ _ _ _ h))

theorem epochEnd_diverged_stops (seqs : EpochSeqs) (e : ℕ) (s : TrainState)
    (h : isDiverged (seqs.loss e) = true) :
    (epochEnd seqs e s).stopTraining = true := by
  rw [epochEnd_eq_pipeline]
  apply applyCb_stop_mono
  simp [applyCb, h]

theorem applyCb_warned_mem (seqs : EpochSeqs) (e w : ℕ) (cb : Cb)
    (s : TrainState) (h : w ∈ s.warnedEpochs) :
    w ∈ (applyCb seqs e cb s).warnedEpochs := by
  obtain ⟨eb, ew, st, we, le⟩ := s
  have hwe : w ∈ we := h
  cases cb with
  | earlyStopping =>
    simp only [applyCb]
    cases eb with
    | none => exact hwe
    | some b2 =>
      split
      · exact hwe
      · split <;> exact hwe
  | infCostStop =>
    simp only [applyCb]
    split
    · exact List.mem_append_left _ hwe
    · exact hwe
  | epochLogger =>
    simp only [applyCb]
    split <;> exact hwe

theorem epochEnd_warned_of_diverged (seqs : EpochSeqs) (e : ℕ)
    (s : TrainState) (h : isDiverged (seqs.loss e) = true) :
    e ∈ (epochEnd seqs e s).warnedEpochs := by
  rw [epochEnd_eq_pipeline]
  apply applyCb_warned_mem
  simp [applyCb, h]

theorem epochEnd_warned_mem (seqs : EpochSeqs) (e w : ℕ) (s : TrainState)
    (h : w ∈ s.warnedEpochs) : w ∈ (epochEnd seqs e s).warnedEpochs := by
  rw [epochEnd_eq_pipeline]
  exact applyCb_warned_mem _ _ _ _ _ (applyCb_warned_mem _ _ _ _ _
    (applyCb_warned_mem _ _ _ _ _ h))

theorem runFrom_warned_mem (seqs : EpochSeqs) (w : ℕ) :
    ∀ (fuel a : ℕ) (s : TrainState), w ∈ s.warnedEpochs →
      w ∈ (runFrom seqs a fuel s).final.warnedEpochs := by
  intro fuel
  induction fuel with
  | zero => intro a s h; exact h
  | succ fuel ih =>
    intro a s h
    simp only [runFrom]
    split
    · exact epochEnd_warned_mem seqs a w s h
    · exact ih (a + 1) _ (epochEnd_warned_mem seqs a w s h)

theorem runFrom_completed_le (seqs : EpochSeqs) (e : ℕ)
    (hdiv : isDiverged (seqs.loss e) = true) :
    ∀ (fuel a : ℕ) (s : TrainState), a ≤ e →
      (runFrom seqs a fuel s).epochsCompleted ≤ e + 1 := by
  intro fuel
  induction fuel with
  | zero => intro a s ha; exact Nat.le_succ_of_le ha
  | succ fuel ih =>
    intro a s ha
    simp only [runFrom]
    split
    · exact Nat.succ_le_succ ha
    · rename_i hstop
      have hane : a ≠ e := by
        intro heq
        subst heq
        exact hstop (epochEnd_diverged_stops seqs a s hdiv)
      exact ih (a + 1) _ (by omega)

theorem runFrom_executed_warned (seqs : EpochSeqs) (e : ℕ)
    (hdiv : isDiverged (seqs.loss e) = true) :
    ∀ (fuel a : ℕ) (s : TrainState), a ≤ e →
      e < (runFrom seqs a fuel s).epochsCompleted →
      e ∈ (runFrom seqs a fuel s).final.warnedEpochs := by
  intro fuel
  induction fuel with
  | zero =>
    intro a s ha hlt
    exact absurd hlt (by simp [runFrom]; omega)
  | succ fuel ih =>
    intro a s ha hlt
    simp only [runFrom] at hlt ⊢
    by_cases hstop : (epochEnd seqs a s).stopTraining = true
    · simp only [hstop, if_true] at hlt ⊢
      have hae : a = e := by omega
      subst hae
      exact epochEnd_warned_of_diverged seqs a s hdiv
    · simp only [hstop] at hlt ⊢
      have hane : a ≠ e := by
        intro heq
        subst heq
        exact hstop (epochEnd_diverged_stops seqs a s hdiv)
      exact ih (a + 1) _ (by omega) hlt

/-- C6: if the training loss at epoch e is the cost-divergence sentinel
(infinity) or NaN, the run halts at or before epoch e (at most e + 1 epochs
run in total); when epoch e did run, the divergence warning was logged at
epoch e; and the stop is a total, non-raising outcome with the fit
classifier still holding its network. -/
theorem divergence_halts_training (lr : ℝ) (num_cps D epochs e : ℕ)
    (net : ClassifierNetwork D num_cps) (seqs : EpochSeqs)
    (hdiv : isDiverged (seqs.loss e) = true) :
    (runTraining seqs epochs).epochsCompleted ≤ e + 1
    ∧ (e < (runTraining seqs epochs).epochsCompleted →
        e ∈ (runTraining seqs epochs).final.warnedEpochs)
    ∧ (fitClassifier lr num_cps D net seqs epochs).1.model.isSome = true := by
  refine ⟨?_, ?_, rfl⟩
  · exact runFrom_completed_le seqs e hdiv epochs 0 initialTrainState
      (Nat.zero_le e)
  · exact runFrom_executed_warned seqs e hdiv epochs 0 initialTrainState
      (Nat.zero_le e)

/-- Witness for C6: a NaN loss at epoch 0 stops a 5-epoch run after at most
one epoch. -/
theorem divergence_halts_training_witness :
    isDiverged (nanLossSeqs.loss 0) = true
    ∧ (runTraining nanLossSeqs 5).epochsCompleted ≤ 0 + 1 :=
  ⟨rfl, (divergence_halts_training 0 1 1 5 0 zeroNet nanLossSeqs rfl).1⟩

/-! Helper lemmas for the early-stopping bookkeeping (C8). -/

theorem epochEnd_no_improve (seqs : EpochSeqs) (e : ℕ) (s : TrainState)
    (b : ℚ) (hb : s.esBest = some b)
    (hno : b - seqs.monitor e < min_delta) :
    (epochEnd seqs e s).esBest = some b
    ∧ (epochEnd seqs e s).esWait = s.esWait + 1
    ∧ (patience ≤ s.esWait + 1 → (epochEnd seqs e s).stopTraining = true) := by
  obtain ⟨eb, ew, st, we, le⟩ := s
  have hb2 : eb = some b := hb
  subst hb2
  simp only [epochEnd_eq_pipeline]
  have hes : applyCb seqs e Cb.earlyStopping ⟨some b, ew, st, we, le⟩ =
      ⟨some b, ew + 1, st || decide (patience ≤ ew + 1), we, le⟩ := by
    simp only [applyCb]
    rw [if_neg (not_le.mpr hno)]
  rw [hes]
  refine ⟨?_, ?_, ?_⟩
  · simp only [applyCb]
    split_ifs <;> rfl
  · simp only [applyCb]
    split_ifs <;> rfl
  · intro hp
    simp only [applyCb]
    split_ifs <;> simp [hp]

theorem runEpochEnds_stop_mono (seqs : EpochSeqs) :
    ∀ (k a : ℕ) (s : TrainState), s.stopTraining = true →
      (runEpochEnds seqs a k s).stopTraining = true := by
  intro k
  induction k with
  | zero => intro a s h; exact h
  | succ k ih =>
    intro a s h
    exact ih (a + 1) _ (epochEnd_stop_mono seqs a s h)

theorem runEpochEnds_no_improve (seqs : EpochSeqs) (b : ℚ) :
    ∀ (k a : ℕ) (s : TrainState), s.esBest = some b →
      (∀ i, i < k → b - seqs.monitor (a + i) < min_delta) →
      (runEpochEnds seqs a k s).stopTraining = true
      ∨ ((runEpochEnds seqs a k s).esBest = some b
         ∧ (runEpochEnds seqs a k s).esWait = s.esWait + k
         ∧ (k = 0 ∨ s.esWait + k < patience)) := by
  intro k
  induction k with
  | zero =>
    intro a s hb _
    exact Or.inr ⟨hb, rfl, Or.inl rfl⟩
  | succ k ih =>
    intro a s hb hno
    have hstep := epochEnd_no_improve seqs a s b hb
      (by simpa using hno 0 (Nat.succ_pos k))
    have hred : runEpochEnds seqs a (k + 1) s =
        runEpochEnds seqs (a + 1) k (epochEnd seqs a s) := rfl
    rw [hred]
    by_cases hstop : (epochEnd seqs a s).stopTraining = true
    · exact Or.inl (runEpochEnds_stop_mono seqs k (a + 1) _ hstop)
    · have hlt : s.esWait + 1 < patience := by
        by_contra hge
        exact hstop (hstep.2.2 (by omega))
      rcases ih (a + 1) (epochEnd seqs a s) hstep.1
          (fun i hi => by
            have := hno (i + 1) (by omega)
            simpa [Nat.add_assoc, Nat.add_comm 1 i] using this) with
        hdone | ⟨hb2, hw2, hp2⟩
      · exact Or.inl hdone
      · refine Or.inr ⟨hb2, ?_, ?_⟩
        · rw [hw2, hstep.2.1]
          omega
        · rcases hp2 with hk0 | hlt2
          · subst hk0
            exact Or.inr (by omega)
          · rw [hstep.2.1] at hlt2
            exact Or.inr (by omega)

/-- C8: Classifier.fit holds out a 15% validation split and monitors
"val_loss" when the training set has at least 300 rows, and makes no split
and monitors "loss" otherwise; in both cases the early stopping
(min_delta=1e-3, patience=20, internals modelled from the spec since the
callback is framework-provided) fires after 20 consecutive epochs without an
improvement of at least min_delta over the running best. -/
theorem early_stopping_config_and_patience (numRows : ℕ) (seqs : EpochSeqs)
    (a : ℕ) (s : TrainState) (b : ℚ) (hb : s.esBest = some b)
    (hno : ∀ i, i < patience → b - seqs.monitor (a + i) < min_delta) :
    (numRows < 300 → fitConfig numRows = ("loss", none))
    ∧ (300 ≤ numRows → fitConfig numRows = ("val_loss", some (15 / 100)))
    ∧ (runEpochEnds seqs a patience s).stopTraining = true := by
  refine ⟨fun h => by simp [fitConfig, h],
    fun h => by simp [fitConfig, Nat.not_lt.mpr h], ?_⟩
  rcases runEpochEnds_no_improve seqs b patience a s hb hno with
    hdone | ⟨-, -, hp⟩
  · exact hdone
  · rcases hp with h0 | hlt
    · exact absurd h0 (by decide)
    · exact absurd hlt (by simp [patience])

/-- Witness for C8: with 50 training rows, a recorded best of 0 and a
constant monitored loss of 0, early stopping has fired after 20 epoch ends. -/
theorem early_stopping_config_and_patience_witness :
    esProbeState.esBest = some 0
    ∧ (∀ i, i < patience → (0 : ℚ) - flatSeqs.monitor (0 + i) < min_delta)
    ∧ (50 < 300 → fitConfig 50 = ("loss", none))
    ∧ (runEpochEnds flatSeqs 0 patience esProbeState).stopTraining = true := by
  have happ := early_stopping_config_and_patience 50 flatSeqs 0 esProbeState 0
    rfl (fun i _ => by norm_num [flatSeqs, min_delta])
  exact ⟨rfl, fun i _ => by norm_num [flatSeqs, min_delta], happ.1, happ.2.2⟩

/-- C9 counterexample: the claim says the epoch-end conditions run with the
divergence check first, then the early-stopping bookkeeping, then the
logging; but the callbacks list Classifier.fit passes to model.fit (run in
list order) has the EarlyStopping callback first. -/
theorem epoch_end_order_counterexample :
    fitCallbacks ≠ [Cb.infCostStop, Cb.earlyStopping, Cb.epochLogger] := by
  decide

/-- C9 (amended): at the end of every training epoch the three epoch-end
conditions are evaluated in the fixed order early-stopping bookkeeping
first, then the divergence check, then the periodic logging; the divergence
check still halts training whenever it fires, since both stopping callbacks
set the same stop_training flag. -/
theorem epoch_end_order_amended (seqs : EpochSeqs) (e : ℕ) (s : TrainState)
    (hdiv : isDiverged (seqs.loss e) = true) :
    fitCallbacks = [Cb.earlyStopping, Cb.infCostStop, Cb.epochLogger]
    ∧ epochEnd seqs e s = applyCb seqs e Cb.epochLogger
        (applyCb seqs e Cb.infCostStop (applyCb seqs e Cb.earlyStopping s))
    ∧ (epochEnd seqs e s).stopTraining = true :=
  ⟨rfl, rfl, epochEnd_diverged_stops seqs e s hdiv⟩

/-- Witness for C9's amended statement on the NaN loss stream. -/
theorem epoch_end_order_amended_witness :
    isDiverged (nanLossSeqs.loss 0) = true
    ∧ (epochEnd nanLossSeqs 0 initialTrainState).stopTraining = true :=
  ⟨rfl, (epoch_end_order_amended nanLossSeqs 0 initialTrainState rfl).2.2⟩

/-- C10: the trainable-activation weights of two consecutive
identically-configured build_model calls differ, because get_init_values
draws from the numpy global RNG, which tf.random.set_seed(0) in fit does not
seed: on the stream 0, 1, 2, ... the first build reads position 0 into the
first layer's locations while the second build reads position 21.  So a
fixed per-fit seed does not govern all weight initialization and repeated
fits are not reproducible. -/
theorem np_rng_init_not_reproducible :
    firstFitInit.1.1.locations ⟨0, by decide⟩ ⟨0, by decide⟩ = 0
    ∧ secondFitInit.1.1.locations ⟨0, by decide⟩ ⟨0, by decide⟩ = 21
    ∧ firstFitInit.1 ≠ secondFitInit.1 := by
  refine ⟨by decide, by decide, fun h => ?_⟩
  have hloc : firstFitInit.1.1.locations ⟨0, by decide⟩ ⟨0, by decide⟩ =
      secondFitInit.1.1.locations ⟨0, by decide⟩ ⟨0, by decide⟩ := by rw [h]
  have h0 : (0 : ℚ) = 21 := by
    rw [← show firstFitInit.1.1.locations ⟨0, by decide⟩ ⟨0, by decide⟩ = 0
        from by decide, hloc]
    decide
  norm_num at h0

end PredictorModel
